import Mathlib

/-!
Shallow embedding of the `quorum-fullnode-py` client library
(request-construction / response-normalization layer and the client-side
membership guard), translated from the Python sources:

* `quorum_fullnode_py/api/fullnode.py`  — `FullNodeAPI` (guards, content,
  pubqueue, consensus, user management)
* `quorum_fullnode_py/api/base.py`      — `BaseAPI` (endpoint dispatch)
* `quorum_fullnode_py/client/_http.py`  — `HttpRequest` (transport: the class
  defines exactly the methods `get` and `post`)
* `quorum_fullnode_py/client/fullnode.py` — `FullNode` façade
* `quorum_fullnode_py/types/data.py`    — `FeedData` content packing

Python dicts carrying fixed keys become structures with `Option` fields for
conditionally-present keys; Python exceptions become an `Err` sum type carried
in `Except`; Python truthiness (`x or y`, `if x:`) is made explicit through
`pyTruthy*` / `pyOr*` helpers.  I/O-bound collaborators (the HTTP transport,
the media codec used for image compression, the base64+JSON decoder) are
parameters of the functions that call them, matching the spec's collaborator
boundaries.
-/

namespace Quorum

/-- Exceptions raised by the client library (`exceptions.py` plus the Python
built-ins the code raises directly: `ValueError` in `update_consensus`, and
`AttributeError` for a missing attribute on the transport object). -/
inductive Err where
  | paramValueError (msg : String)
  | rumChainException (msg : String)
  | valueError (msg : String)
  | attributeError (msg : String)
deriving DecidableEq, Repr

/-- Spec taxonomy `InvalidArgument`: a caller-supplied parameter failed local
validation (`ParamValueError` in `exceptions.py`, or the bare `ValueError`
raises in `update_consensus`). -/
def Err.isInvalidArgument : Err → Bool
  | .paramValueError _ => true
  | .valueError _ => true
  | _ => false

/-- Python `str.lower()` (over the string's characters, so that it reduces
definitionally; all strings the library lowercases are ASCII). -/
def pyLower (s : String) : String := ⟨s.data.map Char.toLower⟩

/-- Python truthiness of an optional string: `None` and `""` are falsy. -/
def pyTruthyS : Option String → Bool
  | none => false
  | some s => !(s == "")

/-- Python `a or b` on optional strings. -/
def pyOrOS (a b : Option String) : Option String :=
  if pyTruthyS a then a else b

/-- Python `a or b` where `a` is an optional string and `b` a plain string. -/
def pyOrS (a : Option String) (b : String) : String :=
  match a with
  | some s => if s = "" then b else s
  | none => b

/-- Python truthiness of an optional integer: `None` and `0` are falsy. -/
def pyTruthyI : Option Int → Bool
  | none => false
  | some v => !(v == 0)

/-- Python `a or b` where `a` is an optional integer and `b` a plain integer. -/
def pyOrI (a : Option Int) (b : Int) : Int :=
  match a with
  | some v => if v = 0 then b else v
  | none => b

/-- Python `a or b` where `a` is an optional list and `b` a plain list. -/
def pyOrL (a : Option (List String)) (b : List String) : List String :=
  match a with
  | some l => if l = [] then b else l
  | none => b

/-- The node-side facts a `FullNodeAPI` call can observe: the current-group
selection (`self.group_id`) and the freshly fetched joined-groups list
(`self.groups_id`, derived from `GET /api/v1/groups`). -/
structure NodeState where
  groupId : Option String
  groupsId : List String
deriving DecidableEq, Repr

/-- Group info as returned by the node's group-info endpoint; only the two
pubkey fields are read by the guards (`info.get("user_pubkey", "user")`). -/
structure GroupInfo where
  userPubkey : Option String
  ownerPubkey : Option String
deriving DecidableEq, Repr

/-- Embeds `FullNodeAPI._check_group_id_as_required`: `group_id = group_id or
self.group_id; if not group_id: raise ParamValueError("group_id is
required")`. -/
def checkGroupId (st : NodeState) (groupId : Option String) : Except Err String :=
  match pyOrOS groupId st.groupId with
  | some g => if g = "" then .error (.paramValueError "group_id is required") else .ok g
  | none => .error (.paramValueError "group_id is required")

/-- Error raised by `_check_group_joined_as_required` for a group the node has
not joined. -/
def notAJoinedGroupErr (g : String) : Err :=
  .rumChainException ("You are not in this group: <" ++ g ++ ">.")

/-- Error raised by `_check_group_owner_as_required` for a group the caller
does not own. -/
def notGroupOwnerErr (g : String) : Err :=
  .rumChainException ("You are not the owner of this group: <" ++ g ++ ">.")

/-- Embeds `FullNodeAPI._check_group_joined_as_required`: resolve the id, then raise
`RumChainException` when it is not in `self.groups_id`. -/
def checkGroupJoined (st : NodeState) (groupId : Option String) : Except Err String := do
  let g ← checkGroupId st groupId
  if g ∈ st.groupsId then .ok g else .error (notAJoinedGroupErr g)

/-- Embeds `FullNodeAPI.group_info`: re-checks joined membership, then fetches the
group info (`infoOf` stands for `GET /api/v1/group/{id}`). -/
def groupInfoOp (st : NodeState) (infoOf : String → GroupInfo) (groupId : Option String) :
    Except Err GroupInfo := do
  let g ← checkGroupJoined st groupId
  .ok (infoOf g)

/-- Embeds `FullNodeAPI._check_group_owner_as_required`: resolve and check joined,
fetch the group info, and raise `RumChainException` when
`info.get("user_pubkey", "user") != info.get("owner_pubkey", "owner")`. -/
def checkGroupOwner (st : NodeState) (infoOf : String → GroupInfo) (groupId : Option String) :
    Except Err String := do
  let g ← checkGroupJoined st groupId
  let info ← groupInfoOp st infoOf (some g)
  if info.userPubkey.getD "user" ≠ info.ownerPubkey.getD "owner" then
    .error (notGroupOwnerErr g)
  else
    .ok g

/-- Attribute lookup on the transport object: `client/_http.py` defines the
class `HttpRequest` with exactly the request methods `get` and `post` (plus
`__init__` and `_request`).  Any other attribute access raises
`AttributeError`. -/
def httpRequestHasAttr : String → Bool
  | "get" => true
  | "post" => true
  | _ => false

/-- An HTTP request as handed to the transport: verb, endpoint path, and the
JSON payload (`π` is the payload shape of the particular endpoint). -/
structure HttpReq (π : Type) where
  method : String
  endpoint : String
  payload : π
deriving DecidableEq, Repr

/-- Dispatch through the transport object: `self._http.<method>(endpoint,
payload)`.  The attribute lookup on `HttpRequest` fails for any verb other
than `get`/`post`. -/
def httpCall {π : Type} (method endpoint : String) (payload : π) : Except Err (HttpReq π) :=
  if httpRequestHasAttr method then
    .ok ⟨method, endpoint, payload⟩
  else
    .error (.attributeError ("HttpRequest object has no attribute " ++ method))

/-- Payload of the token revoke/remove endpoints:
`{"role": role, "group_id": group_id, "token": token}`. -/
structure TokenPayload where
  role : String
  group_id : Option String
  token : Option String
deriving DecidableEq, Repr

/-- Embeds `FullNodeAPI.revoke_token`: validate the role, resolve the group id for
node-role tokens, and POST to `/app/api/v1/token/revoke`
(via `BaseAPI._revoke_token`). -/
def revokeToken (st : NodeState) (token role groupId : Option String) :
    Except Err (HttpReq TokenPayload) := do
  let r := pyOrS role "node"
  if r ≠ "node" ∧ r ≠ "chain" then
    .error (.paramValueError "role must be one of ['node','chain']")
  else
    let gid ← if r = "chain" then pure none else do
      let g ← checkGroupId st groupId
      pure (some g)
    httpCall "post" "/app/api/v1/token/revoke" ⟨r, gid, token⟩

/-- Embeds `FullNodeAPI.remove_token`: validate the role, resolve the group id for
node-role tokens, and dispatch `BaseAPI._remove_token`, which calls
`self._delete("/app/api/v1/token", payload)`, i.e. `self._http.delete(...)`. -/
def removeToken (st : NodeState) (token role groupId : Option String) :
    Except Err (HttpReq TokenPayload) := do
  let r := pyOrS role "node"
  if r ≠ "node" ∧ r ≠ "chain" then
    .error (.paramValueError "role must be one of ['node','chain']")
  else
    let gid ← if r = "chain" then pure none else do
      let g ← checkGroupId st groupId
      pure (some g)
    httpCall "delete" "/app/api/v1/token" ⟨r, gid, token⟩

/-- Payload of `POST /api/v1/group/{id}/content`: `{"data": data}`, where
`data` is the caller's content object (kept abstract as `δ`). -/
structure ContentPayload (δ : Type) where
  data : δ
deriving DecidableEq, Repr

/-- Embeds `FullNodeAPI.post_content`: `group_id =
self._check_group_joined_as_required(group_id)`, then
`self._post_content(group_id, {"data": data})`. -/
def postContent {δ : Type} (st : NodeState) (data : δ) (groupId : Option String) :
    Except Err (HttpReq (ContentPayload δ)) := do
  let g ← checkGroupJoined st groupId
  httpCall "post" ("/api/v1/group/" ++ g ++ "/content") ⟨data⟩

/-- A transaction as returned by the content endpoint: its `Data` field is
either the raw wire value (a base64 string) or, after normalization, the
decoded JSON value (kept abstract as `α`); `rest` stands for the remaining
metadata fields, which `get_content` never touches. -/
structure Trx (α : Type) where
  data : String ⊕ α
  rest : String
deriving DecidableEq, Repr

/-- The per-transaction normalization step of `FullNodeAPI.get_content`:
`try: trx["Data"] = json.loads(base64.b64decode(trx["Data"])) except: keep`.
`dec` stands for the base64-then-JSON decoder, returning `none` when either
stage raises. -/
def decodeTrxData {α : Type} (dec : String → Option α) (t : Trx α) : Trx α :=
  match t.data with
  | .inl s =>
    match dec s with
    | some v => { t with data := .inr v }
    | none => t
  | .inr _ => t

/-- The normalization loop of `FullNodeAPI.get_content`: every transaction of
the node's response is appended to the result, decoded in place when the
decode succeeds and unchanged otherwise. -/
def getContentNormalize {α : Type} (dec : String → Option α) (trxs : List (Trx α)) :
    List (Trx α) :=
  trxs.map (decodeTrxData dec)

/-- One entry of the publish queue (`FullNodeAPI.pubqueue`): the fields read
by `autoack` are `i["State"]` and `i["Trx"]["TrxId"]`. -/
structure PubqueueEntry where
  state : String
  trxId : String
deriving DecidableEq, Repr

/-- Result of `FullNodeAPI.ack`: either the `trx_ids == []` short-circuit
(returns `True`, no request sent) or the acknowledgment POST to
`/api/v1/trx/ack` with the given ids. -/
inductive AckResult where
  | noop
  | request (trxIds : List String)
deriving DecidableEq, Repr

/-- Embeds `FullNodeAPI.ack`: `if trx_ids == []: return True`, otherwise POST the
batch. -/
def ack (trxIds : List String) : AckResult :=
  if trxIds = [] then .noop else .request trxIds

/-- Embeds `FullNodeAPI.autoack`: resolve the group id, fetch its publish queue
(`queue` is the fetched `Data` list), collect `i["Trx"]["TrxId"]` for the
entries with `i["State"] == "FAIL"`, and ack them. -/
def autoack (st : NodeState) (groupId : Option String) (queue : List PubqueueEntry) :
    Except Err AckResult := do
  let _ ← checkGroupId st groupId
  pure (ack ((queue.filter (fun i => i.state == "FAIL")).map (fun i => i.trxId)))

/-- Constant from `types/data.py`: total-image-size ceiling: `IMAGE_MAX_SIZE_KB = 200`. -/
def IMAGE_MAX_SIZE_KB : Nat := 200

/-- Constant from `types/data.py`: per-trx image count limit: `IMAGE_MAX_NUM = 4`. -/
def IMAGE_MAX_NUM : Nat := 4

/-- An image input accepted by `_pack_images` (a file path, raw bytes, a
base64 string, or a structured dict); the distinctions live inside the
per-image step, which is I/O-bound, so the input stays abstract here. -/
structure ImgInput where
  raw : String
deriving DecidableEq, Repr

/-- One packed image: `{"name": ..., "mediaType": ..., "content": ...}`. -/
structure PackedImage where
  name : String
  mediaType : String
  content : String
deriving DecidableEq, Repr

/-- Embeds `_pack_images`: `kb = int(IMAGE_MAX_SIZE_KB // min(len(images),
IMAGE_MAX_NUM))`, then the loop `for path_bytes_string in
images[:IMAGE_MAX_NUM]` packs each input.  The loop body (file sniffing,
compression through the media codec, base64 encoding) is the I/O-bound
collaborator `packOne`, which receives the computed kilobyte budget. -/
def packImages (packOne : Nat → ImgInput → PackedImage) (images : List ImgInput) :
    List PackedImage :=
  let kb := IMAGE_MAX_SIZE_KB / min images.length IMAGE_MAX_NUM
  (images.take IMAGE_MAX_NUM).map (packOne kb)

/-- The `Note` content object built by `_pack_content`: keys `content`,
`image` and `name` are present only when their condition held; `type` is
always `"Note"` and `id` is always set last. -/
structure NoteObj where
  type : String
  content : Option String
  image : Option (List PackedImage)
  name : Option String
  id : String
deriving DecidableEq, Repr

/-- Embeds `_pack_content(content, images, name, post_id)`: normalize the two
falsy-able arguments, raise on empty content, then assemble the `Note`
object; `uuid` stands for the `str(uuid.uuid4())` fresh id. -/
def packContent (packOne : Nat → ImgInput → PackedImage)
    (content : Option String) (images : Option (List ImgInput))
    (name : Option String) (postId : Option String) (uuid : String) :
    Except Err NoteObj :=
  let c := content.getD ""
  let imgs := images.getD []
  if c.length < 1 then
    .error (.paramValueError "content is empty")
  else if c = "" ∧ imgs = [] then
    .error (.paramValueError "content and images are empty")
  else
    .ok
      { type := "Note"
        content := if c ≠ "" then some c else none
        image := if imgs ≠ [] then some (packImages packOne imgs) else none
        name := if pyTruthyS name then name else none
        id := pyOrS postId uuid }

/-- The wrapper built by `FeedData.new_post`: `{"type": "Create", "object":
<packed content>}`. -/
structure CreateObj where
  type : String
  object : NoteObj
deriving DecidableEq, Repr

/-- Embeds `FeedData.new_post(content, images, post_id, name)`. -/
def newPost (packOne : Nat → ImgInput → PackedImage)
    (content : Option String) (images : Option (List ImgInput))
    (postId : Option String) (name : Option String) (uuid : String) :
    Except Err CreateObj := do
  let obj ← packContent packOne content images name postId uuid
  .ok { type := "Create", object := obj }

/-- The consensus proof request the client reads back before an update
(`reqs[0]["Req"]` from `get_consensus_req`); an empty `resps` list is
modelled by all fields absent (`req = {}` in the source). -/
structure ConsensusReq where
  StartFromEpoch : Option Int
  TrxEpochTickLenInMs : Option Int
  AgreementTickLenInMs : Option Int
  AgreementTickCount : Option Int
  ProducerPubkeyList : Option (List String)
deriving DecidableEq, Repr

/-- The payload shape shared by the `_exist` snapshot and the update request
in `update_consensus` (the capital `L` in `agreement_tick_Length` is the
source's own key spelling). -/
structure ConsensusPayload where
  group_id : String
  start_from_epoch : Int
  trx_epoch_tick : Int
  agreement_tick_Length : Int
  agreement_tick_count : Int
  producer_pubkey : List String
deriving DecidableEq, Repr

/-- Outcome of `update_consensus`: the `payload == _exist` short-circuit
(`{"message": "Nothing to update"}`, no update request sent) or the POST of
the computed payload to `/api/v1/group/updconsensus`. -/
inductive ConsensusOutcome where
  | nothingToUpdate
  | updateRequest (p : ConsensusPayload)
deriving DecidableEq, Repr

/-- Embeds `FullNodeAPI.update_consensus`: resolve the group id, read the prior
request (`req`, fetched through two GETs that precede all validation),
default `start_from_epoch` to 1, validate the three lower bounds with raw
`ValueError` raises guarded by truthiness, build `_exist` and the payload
with `or`-fallbacks, and short-circuit when they are equal.  The
`trx_epoch_tick < agreement_tick_Length` comparison only logs a warning, so
it does not appear in the result. -/
def updateConsensus (st : NodeState) (req : ConsensusReq)
    (startFromEpoch trxEpochTick agreementTickLength agreementTickCount : Option Int)
    (producerPubkey : Option (List String)) (groupId : Option String) :
    Except Err ConsensusOutcome := do
  let gid ← checkGroupId st groupId
  let sfe : Int := match startFromEpoch with | none => 1 | some v => v
  if pyTruthyI trxEpochTick ∧ trxEpochTick.getD 0 < 500 then
    .error (.valueError "trx_epoch_tick should be greater than 500(ms)")
  else if pyTruthyI agreementTickLength ∧ agreementTickLength.getD 0 < 1000 then
    .error (.valueError "agreement_tick_length should be greater than 1000(ms)")
  else if pyTruthyI agreementTickCount ∧ agreementTickCount.getD 0 < 10 then
    .error (.valueError "agreement_tick_count should be greater than 10")
  else
    let ex : ConsensusPayload :=
      { group_id := gid
        start_from_epoch := pyOrI req.StartFromEpoch 1
        trx_epoch_tick := pyOrI req.TrxEpochTickLenInMs 500
        agreement_tick_Length := pyOrI req.AgreementTickLenInMs 1000
        agreement_tick_count := pyOrI req.AgreementTickCount 10
        producer_pubkey := pyOrL req.ProducerPubkeyList [] }
    let payload : ConsensusPayload :=
      { group_id := gid
        start_from_epoch := if sfe = 0 then ex.start_from_epoch else sfe
        trx_epoch_tick := pyOrI trxEpochTick ex.trx_epoch_tick
        agreement_tick_Length := pyOrI agreementTickLength ex.agreement_tick_Length
        agreement_tick_count := pyOrI agreementTickCount ex.agreement_tick_count
        producer_pubkey := pyOrL producerPubkey ex.producer_pubkey }
    if payload = ex then .ok .nothingToUpdate
    else .ok (.updateRequest payload)

/-- The announced-user status dict probed by `add_user`; only
`status.get("Result")` is read. -/
structure AnnouncedStatus where
  result : Option String
deriving DecidableEq, Repr

/-- Payload of `POST /api/v1/group/user`:
`{"user_pubkey": ..., "group_id": ..., "action": ...}`. -/
structure UserPayload where
  user_pubkey : String
  group_id : String
  action : String
deriving DecidableEq, Repr

/-- Result of `add_user`: either the announced status returned directly by
the idempotency shortcut (no approval transaction issued), or the approval
request dispatched by `_approve_user`. -/
inductive AddUserResult where
  | announced (status : AnnouncedStatus)
  | approval (req : HttpReq UserPayload)
deriving DecidableEq, Repr

/-- Embeds `FullNodeAPI._approve_user(pubkey, action, group_id)`: owner check,
action validation, then `POST /api/v1/group/user`. -/
def approveUser (st : NodeState) (infoOf : String → GroupInfo)
    (pubkey action : String) (groupId : Option String) :
    Except Err (HttpReq UserPayload) := do
  let g ← checkGroupOwner st infoOf groupId
  if pyLower action ∉ ["add", "remove"] then
    .error (.paramValueError "action must be one of these: add, remove")
  else
    httpCall "post" "/api/v1/group/user" ⟨pubkey, g, pyLower action⟩

/-- Embeds `FullNodeAPI.add_user(pubkey, group_id)`: probe the announced status of
`pubkey` (a GET that may itself raise — `probe` is its outcome); return the
status directly when `Result == "APPROVED"`; on any probe exception, log at
debug level and fall through; otherwise fall through to `_approve_user`. -/
def addUser (st : NodeState) (infoOf : String → GroupInfo)
    (probe : Except String AnnouncedStatus)
    (pubkey : String) (groupId : Option String) :
    Except Err AddUserResult :=
  match probe with
  | .ok status =>
    if status.result = some "APPROVED" then
      .ok (.announced status)
    else
      (approveUser st infoOf pubkey "add" groupId).map .approval
  | .error _ =>
    (approveUser st infoOf pubkey "add" groupId).map .approval

/-- The two mutable group-id fields of the façade layer
(`client/fullnode.py`): `FullNode._group_id` and the inner
`FullNodeAPI.group_id`. -/
structure FacadeState where
  facadeGroupId : Option String
  apiGroupId : Option String
deriving DecidableEq, Repr

/-- Embeds `FullNode.__init__`: `_group_id` starts as the class default `None`, and
the inner API is constructed with `FullNodeAPI(http, self.group_id)`, which
stores that same value. -/
def facadeInit : FacadeState :=
  { facadeGroupId := none, apiGroupId := none }

/-- The `FullNode.group_id` property setter: `self._group_id = group_id;
self.api.group_id = group_id`. -/
def setGroupId (_s : FacadeState) (gid : Option String) : FacadeState :=
  { facadeGroupId := gid, apiGroupId := gid }

/-- A fresh façade after a sequence of assignments to its `group_id`
property. -/
def runSets (ops : List (Option String)) : FacadeState :=
  ops.foldl setGroupId facadeInit

/-! Helper lemmas shared by the claim proofs. -/

theorem except_bind_ok {ε α β : Type} (a : α) (f : α → Except ε β) :
    (Except.ok a >>= f : Except ε β) = f a := rfl

theorem except_bind_err {ε α β : Type} (e : ε) (f : α → Except ε β) :
    (Except.error e >>= f : Except ε β) = Except.error e := rfl

theorem checkGroupId_ok_ne_empty {st : NodeState} {gid : Option String} {g : String}
    (h : checkGroupId st gid = .ok g) : g ≠ "" := by
  unfold checkGroupId at h
  cases hp : pyOrOS gid st.groupId with
  | none => rw [hp] at h; exact absurd h (by simp)
  | some s =>
    rw [hp] at h
    by_cases hs : s = ""
    · simp [hs] at h
    · simp [hs] at h; exact h ▸ hs

theorem checkGroupId_some_of_ne {st : NodeState} {g : String} (h : g ≠ "") :
    checkGroupId st (some g) = .ok g := by
  unfold checkGroupId pyOrOS pyTruthyS
  simp [h]

theorem checkGroupJoined_ok_iff {st : NodeState} {gid : Option String} {g : String} :
    checkGroupJoined st gid = .ok g ↔ checkGroupId st gid = .ok g ∧ g ∈ st.groupsId := by
  unfold checkGroupJoined
  constructor
  · intro h
    cases hc : checkGroupId st gid with
    | error e => rw [hc, except_bind_err] at h; exact absurd h (by simp)
    | ok g' =>
      rw [hc, except_bind_ok] at h
      by_cases hm : g' ∈ st.groupsId
      · simp [hm] at h; subst h; exact ⟨rfl, hm⟩
      · simp [hm, notAJoinedGroupErr] at h
  · rintro ⟨hc, hm⟩
    rw [hc, except_bind_ok]
    simp [hm]

theorem checkGroupJoined_self {st : NodeState} {gid : Option String} {g : String}
    (h : checkGroupJoined st gid = .ok g) : checkGroupJoined st (some g) = .ok g := by
  obtain ⟨hc, hm⟩ := checkGroupJoined_ok_iff.mp h
  exact checkGroupJoined_ok_iff.mpr ⟨checkGroupId_some_of_ne (checkGroupId_ok_ne_empty hc), hm⟩

/-- C5: the MembershipGuard checks form a strict ladder.  HasGroupId
(`_check_group_id_as_required`) resolves a truthy explicit id, falls back to
the current-group selection, and fails with MissingGroupId
(`ParamValueError "group_id is required"`) when neither is truthy; IsJoined
(`_check_group_joined_as_required`) additionally fails with `NotAJoinedGroup`
exactly when the resolved id is absent from the freshly-fetched joined-groups
list; IsOwner (`_check_group_owner_as_required`) additionally fails with
`NotGroupOwner` exactly when the fetched group info's `user_pubkey` differs
from its `owner_pubkey`, and passes when they are equal. -/
theorem membership_guard_ladder :
    (∀ (st : NodeState) (g : String), g ≠ "" → checkGroupId st (some g) = .ok g)
    ∧ (∀ (st : NodeState) (gid : Option String) (c : String),
        pyTruthyS gid = false → st.groupId = some c → c ≠ "" → checkGroupId st gid = .ok c)
    ∧ (∀ (st : NodeState) (gid : Option String),
        pyTruthyS gid = false → pyTruthyS st.groupId = false →
        checkGroupId st gid = .error (.paramValueError "group_id is required"))
    ∧ (∀ (st : NodeState) (gid : Option String) (g : String),
        checkGroupId st gid = .ok g →
        (g ∉ st.groupsId ↔ checkGroupJoined st gid = .error (notAJoinedGroupErr g))
        ∧ (g ∈ st.groupsId ↔ checkGroupJoined st gid = .ok g))
    ∧ (∀ (st : NodeState) (infoOf : String → GroupInfo) (gid : Option String) (g u o : String),
        checkGroupJoined st gid = .ok g →
        (infoOf g).userPubkey = some u → (infoOf g).ownerPubkey = some o →
        (u ≠ o ↔ checkGroupOwner st infoOf gid = .error (notGroupOwnerErr g))
        ∧ (u = o ↔ checkGroupOwner st infoOf gid = .ok g)) := by
  refine ⟨?_, ?_, ?_, ?_, ?_⟩
  · intro st g hg
    exact checkGroupId_some_of_ne hg
  · intro st gid c hgid hst hc
    unfold checkGroupId pyOrOS
    simp [hgid, hst, hc]
  · intro st gid hgid hst
    unfold checkGroupId pyOrOS
    rw [hgid]
    simp only [Bool.false_eq_true, if_false]
    cases hs : st.groupId with
    | none => simp
    | some s =>
      rw [hs] at hst
      unfold pyTruthyS at hst
      simp at hst
      simp [hst]
  · intro st gid g hc
    constructor
    · constructor
      · intro hnm
        unfold checkGroupJoined
        rw [hc, except_bind_ok]
        simp [hnm]
      · intro h hm
        rw [(checkGroupJoined_ok_iff.mpr ⟨hc, hm⟩ : checkGroupJoined st gid = .ok g)] at h
        exact absurd h (by simp)
    · constructor
      · intro hm
        exact checkGroupJoined_ok_iff.mpr ⟨hc, hm⟩
      · intro h
        exact (checkGroupJoined_ok_iff.mp h).2
  · intro st infoOf gid g u o hj hu ho
    have hjs : checkGroupJoined st (some g) = .ok g := checkGroupJoined_self hj
    have hinfo : groupInfoOp st infoOf (some g) = .ok (infoOf g) := by
      unfold groupInfoOp
      rw [hjs, except_bind_ok]
    have howner : checkGroupOwner st infoOf gid =
        (if (infoOf g).userPubkey.getD "user" ≠ (infoOf g).ownerPubkey.getD "owner" then
          Except.error (notGroupOwnerErr g)
        else Except.ok g) := by
      unfold checkGroupOwner
      rw [hj, except_bind_ok, hinfo, except_bind_ok]
    rw [hu, ho] at howner
    simp only [Option.getD_some] at howner
    constructor
    · constructor
      · intro hne
        rw [howner, if_pos hne]
      · intro h heq
        rw [heq] at howner
        simp at howner
        rw [howner] at h
        exact absurd h (by simp [notGroupOwnerErr])
    · constructor
      · intro heq
        rw [howner, if_neg (by simp [heq])]
      · intro h
        by_cases heq : u = o
        · exact heq
        · rw [howner, if_pos heq] at h
          exact absurd h (by simp)

/-- C5 witness: the ladder evaluated at the spec's own concrete examples —
IsJoined on `"g3"` with joined list `["g1","g2"]` fails with NotAJoinedGroup,
IsJoined on `"g1"` passes, IsOwner with equal pubkeys passes, and IsOwner
with `user_pubkey = "A"`, `owner_pubkey = "B"` fails with NotGroupOwner. -/
theorem membership_guard_ladder_witness :
    checkGroupJoined ⟨none, ["g1", "g2"]⟩ (some "g3") = .error (notAJoinedGroupErr "g3")
    ∧ checkGroupJoined ⟨none, ["g1", "g2"]⟩ (some "g1") = .ok "g1"
    ∧ checkGroupOwner ⟨none, ["g1", "g2"]⟩ (fun _ => ⟨some "A", some "A"⟩) (some "g1") = .ok "g1"
    ∧ checkGroupOwner ⟨none, ["g1", "g2"]⟩ (fun _ => ⟨some "A", some "B"⟩) (some "g1")
        = .error (notGroupOwnerErr "g1") := by
  have hid : checkGroupId ⟨none, ["g1", "g2"]⟩ (some "g3") = .ok "g3" :=
    membership_guard_ladder.1 ⟨none, ["g1", "g2"]⟩ "g3" (by decide)
  have hid1 : checkGroupId ⟨none, ["g1", "g2"]⟩ (some "g1") = .ok "g1" :=
    membership_guard_ladder.1 ⟨none, ["g1", "g2"]⟩ "g1" (by decide)
  have hj1 : checkGroupJoined ⟨none, ["g1", "g2"]⟩ (some "g1") = .ok "g1" :=
    ((membership_guard_ladder.2.2.2.1 ⟨none, ["g1", "g2"]⟩ (some "g1") "g1" hid1).2).mp
      (by decide)
  refine ⟨?_, hj1, ?_, ?_⟩
  · exact ((membership_guard_ladder.2.2.2.1 ⟨none, ["g1", "g2"]⟩ (some "g3") "g3" hid).1).mp
      (by decide)
  · exact ((membership_guard_ladder.2.2.2.2 ⟨none, ["g1", "g2"]⟩
      (fun _ => ⟨some "A", some "A"⟩) (some "g1") "g1" "A" "A" hj1 rfl rfl).2).mp rfl
  · exact ((membership_guard_ladder.2.2.2.2 ⟨none, ["g1", "g2"]⟩
      (fun _ => ⟨some "A", some "B"⟩) (some "g1") "g1" "A" "B" hj1 rfl rfl).1).mp (by decide)

/-- C1 counterexample: `post_content` does fail with NotAJoinedGroup — with
joined groups `["g1","g2"]` and explicit group id `"g3"`, the call raises
`RumChainException "You are not in this group: <g3>."` instead of dispatching
the post request, refuting the claim that posting requires only the
HasGroupId check level. -/
theorem post_content_not_a_joined_group_cex :
    postContent (δ := String) ⟨none, ["g1", "g2"]⟩ "data" (some "g3")
      = .error (notAJoinedGroupErr "g3") := by
  rfl

/-- C1 amended: `post_content` requires the IsJoined check level — once a
group id is resolved, the post request is dispatched only when the resolved
id appears in the joined-groups list, and the call fails with NotAJoinedGroup
otherwise. -/
theorem post_content_requires_is_joined {δ : Type} :
    ∀ (st : NodeState) (data : δ) (gid : Option String) (g : String),
    checkGroupId st gid = .ok g →
    (g ∉ st.groupsId → postContent st data gid = .error (notAJoinedGroupErr g))
    ∧ (g ∈ st.groupsId →
        postContent st data gid
          = .ok ⟨"post", "/api/v1/group/" ++ g ++ "/content", ⟨data⟩⟩) := by
  intro st data gid g hc
  constructor
  · intro hnm
    unfold postContent
    have hj : checkGroupJoined st gid = .error (notAJoinedGroupErr g) := by
      unfold checkGroupJoined
      rw [hc, except_bind_ok]
      simp [hnm]
    rw [hj, except_bind_err]
  · intro hm
    unfold postContent
    rw [checkGroupJoined_ok_iff.mpr ⟨hc, hm⟩, except_bind_ok]
    rfl

/-- C1 amended witness: with joined groups `["g1","g2"]`, posting to `"g1"`
dispatches the post request and posting to `"g3"` fails with
NotAJoinedGroup. -/
theorem post_content_requires_is_joined_witness :
    postContent (δ := String) ⟨none, ["g1", "g2"]⟩ "data" (some "g1")
      = .ok ⟨"post", "/api/v1/group/g1/content", ⟨"data"⟩⟩
    ∧ postContent (δ := String) ⟨none, ["g1", "g2"]⟩ "data" (some "g3")
      = .error (notAJoinedGroupErr "g3") := by
  constructor
  · exact (post_content_requires_is_joined ⟨none, ["g1", "g2"]⟩ "data" (some "g1") "g1"
      (checkGroupId_some_of_ne (by decide))).2 (by decide)
  · exact (post_content_requires_is_joined ⟨none, ["g1", "g2"]⟩ "data" (some "g3") "g3"
      (checkGroupId_some_of_ne (by decide))).1 (by decide)

/-- C6: `get_content`'s normalization loop attempts a base64-then-JSON decode
of each transaction's `Data` field in place; the result has exactly one entry
per input entry, each entry is the decode-step image of the input entry at
the same position (so no transaction is dropped or reordered), and a
transaction whose `Data` fails to decode is kept unchanged.  The loop is a
total function of the fetched list, so no exception reaches the caller. -/
theorem get_content_decode_resilience {α : Type} :
    ∀ (dec : String → Option α) (ts : List (Trx α)),
    (getContentNormalize dec ts).length = ts.length
    ∧ (∀ (i : Nat) (h : i < ts.length) (h2 : i < (getContentNormalize dec ts).length),
        (getContentNormalize dec ts).get ⟨i, h2⟩ = decodeTrxData dec (ts.get ⟨i, h⟩))
    ∧ (∀ (t : Trx α) (s : String), t.data = Sum.inl s → dec s = none →
        decodeTrxData dec t = t)
    ∧ (∀ t ∈ ts, (∀ s, t.data = Sum.inl s → dec s = none) →
        t ∈ getContentNormalize dec ts) := by
  intro dec ts
  have hkeep : ∀ (t : Trx α) (s : String), t.data = Sum.inl s → dec s = none →
      decodeTrxData dec t = t := by
    intro t s hs hd
    unfold decodeTrxData
    rw [hs]
    simp [hd]
  refine ⟨by simp [getContentNormalize], ?_, hkeep, ?_⟩
  · intro i h h2
    simp [getContentNormalize]
  · intro t ht hfail
    unfold getContentNormalize
    have heq : decodeTrxData dec t = t := by
      cases hd : t.data with
      | inl s => exact hkeep t s hd (hfail s hd)
      | inr v => unfold decodeTrxData; rw [hd]
    exact heq ▸ List.mem_map_of_mem (decodeTrxData dec) ht

/-- C6 witness: a batch with one malformed entry and one valid entry returns
both entries in order, the malformed one with its `Data` unchanged and the
valid one decoded. -/
theorem get_content_decode_resilience_witness :
    (getContentNormalize (fun s => if s = "ok" then some 7 else none)
        [⟨Sum.inl "bad", "r1"⟩, ⟨Sum.inl "ok", "r2"⟩]).length = 2
    ∧ (⟨Sum.inl "bad", "r1"⟩ : Trx Nat) ∈ getContentNormalize
        (fun s => if s = "ok" then some 7 else none)
        [⟨Sum.inl "bad", "r1"⟩, ⟨Sum.inl "ok", "r2"⟩]
    ∧ getContentNormalize (fun s => if s = "ok" then some 7 else none)
        [⟨Sum.inl "bad", "r1"⟩, ⟨Sum.inl "ok", "r2"⟩]
      = [⟨Sum.inl "bad", "r1"⟩, ⟨Sum.inr 7, "r2"⟩] := by
  refine ⟨(get_content_decode_resilience (fun s => if s = "ok" then some 7 else none)
      [⟨Sum.inl "bad", "r1"⟩, ⟨Sum.inl "ok", "r2"⟩]).1, ?_, by decide⟩
  exact (get_content_decode_resilience (fun s => if s = "ok" then some 7 else none)
      [⟨Sum.inl "bad", "r1"⟩, ⟨Sum.inl "ok", "r2"⟩]).2.2.2
    ⟨Sum.inl "bad", "r1"⟩ (by decide)
    (by intro s h; injection h with h1; subst h1; decide)

/-- C4: for every images list, `new_post` with empty content fails with
InvalidArgument (`ParamValueError "content is empty"`) — images alone never
satisfy the content requirement — and for every non-empty content string,
`new_post(content, images=[])` succeeds and returns
`{type: "Create", object: {type: "Note", content, id}}` where `id` is the
caller-supplied truthy `post_id` or the freshly generated UUID. -/
theorem new_post_content_required :
    (∀ (packOne : Nat → ImgInput → PackedImage) (imgs : List ImgInput)
        (postId name : Option String) (uuid : String),
      newPost packOne (some "") (some imgs) postId name uuid
        = .error (.paramValueError "content is empty"))
    ∧ (∀ (packOne : Nat → ImgInput → PackedImage) (c uuid : String), c ≠ "" →
      newPost packOne (some c) (some []) none none uuid
        = .ok ⟨"Create", ⟨"Note", some c, none, none, uuid⟩⟩)
    ∧ (∀ (packOne : Nat → ImgInput → PackedImage) (c p uuid : String), c ≠ "" → p ≠ "" →
      newPost packOne (some c) (some []) (some p) none uuid
        = .ok ⟨"Create", ⟨"Note", some c, none, none, p⟩⟩) := by
  have hlen : ∀ c : String, c ≠ "" → ¬(c.length < 1) := by
    intro c hc hlt
    apply hc
    have h0 : c.length = 0 := Nat.lt_one_iff.mp hlt
    cases c with
    | mk data =>
      rw [String.length_mk] at h0
      rw [List.length_eq_zero.mp h0]
  refine ⟨?_, ?_, ?_⟩
  · intro packOne imgs postId name uuid
    unfold newPost packContent
    simp [except_bind_err]
  · intro packOne c uuid hc
    unfold newPost packContent
    simp only [Option.getD_some]
    rw [if_neg (hlen c hc), if_neg (by simp [hc])]
    simp [hc, pyTruthyS, pyOrS, except_bind_ok]
  · intro packOne c p uuid hc hp
    unfold newPost packContent
    simp only [Option.getD_some]
    rw [if_neg (hlen c hc), if_neg (by simp [hc])]
    simp [hc, hp, pyTruthyS, pyOrS, except_bind_ok]

/-- C4 witness: `new_post(content="", images=[img])` fails with
InvalidArgument even with an image attached, and `new_post(content="x",
images=[])` produces the Create/Note object with the fresh UUID (no
`post_id` supplied) and with a supplied `post_id`. -/
theorem new_post_content_required_witness :
    newPost (fun _ i => ⟨i.raw, "image/png", i.raw⟩) (some "") (some [⟨"img"⟩]) none none "u1"
      = .error (.paramValueError "content is empty")
    ∧ newPost (fun _ i => ⟨i.raw, "image/png", i.raw⟩) (some "x") (some []) none none "u1"
      = .ok ⟨"Create", ⟨"Note", some "x", none, none, "u1"⟩⟩
    ∧ newPost (fun _ i => ⟨i.raw, "image/png", i.raw⟩) (some "x") (some []) (some "p1") none "u1"
      = .ok ⟨"Create", ⟨"Note", some "x", none, none, "p1"⟩⟩ :=
  ⟨new_post_content_required.1 (fun _ i => ⟨i.raw, "image/png", i.raw⟩) [⟨"img"⟩] none none "u1",
   new_post_content_required.2.1 (fun _ i => ⟨i.raw, "image/png", i.raw⟩) "x" "u1" (by decide),
   new_post_content_required.2.2 (fun _ i => ⟨i.raw, "image/png", i.raw⟩) "x" "p1" "u1"
     (by decide) (by decide)⟩

/-- C7: for every non-empty input list, `_pack_images` processes only the
first `IMAGE_MAX_NUM = 4` entries, handing each to the compression step with
the per-image kilobyte budget `IMAGE_MAX_SIZE_KB // min(count,
IMAGE_MAX_NUM)`; with five inputs only the first four are packed, and with
four or more inputs the 200 KB ceiling gives each image a 50 KB budget. -/
theorem pack_images_budget :
    (∀ (packOne : Nat → ImgInput → PackedImage) (imgs : List ImgInput), imgs ≠ [] →
      packImages packOne imgs
        = (imgs.take 4).map (packOne (200 / min imgs.length 4)))
    ∧ (∀ (packOne : Nat → ImgInput → PackedImage) (imgs : List ImgInput), imgs ≠ [] →
      (packImages packOne imgs).length = min imgs.length 4)
    ∧ (∀ (packOne : Nat → ImgInput → PackedImage) (imgs : List ImgInput), imgs.length ≥ 4 →
      packImages packOne imgs = (imgs.take 4).map (packOne 50))
    ∧ (∀ (packOne : Nat → ImgInput → PackedImage) (a b c d e : ImgInput),
      packImages packOne [a, b, c, d, e]
        = [packOne 50 a, packOne 50 b, packOne 50 c, packOne 50 d]) := by
  refine ⟨?_, ?_, ?_, ?_⟩
  · intro packOne imgs _
    rfl
  · intro packOne imgs _
    simp [packImages, IMAGE_MAX_NUM, Nat.min_comm]
  · intro packOne imgs hlen
    have hmin : min imgs.length 4 = 4 := by omega
    simp [packImages, IMAGE_MAX_SIZE_KB, IMAGE_MAX_NUM, hmin]
  · intro packOne a b c d e
    simp [packImages, IMAGE_MAX_SIZE_KB, IMAGE_MAX_NUM]

/-- C7 witness: five concrete inputs are truncated to the first four, each
compressed under a 50 KB budget; a single input gets the full 200 KB. -/
theorem pack_images_budget_witness :
    packImages (fun kb i => ⟨i.raw, toString kb, i.raw⟩) [⟨"a"⟩, ⟨"b"⟩, ⟨"c"⟩, ⟨"d"⟩, ⟨"e"⟩]
      = [⟨"a", "50", "a"⟩, ⟨"b", "50", "b"⟩, ⟨"c", "50", "c"⟩, ⟨"d", "50", "d"⟩]
    ∧ (packImages (fun kb i => ⟨i.raw, toString kb, i.raw⟩) [⟨"a"⟩, ⟨"b"⟩, ⟨"c"⟩, ⟨"d"⟩, ⟨"e"⟩]).length
      = 4
    ∧ packImages (fun kb i => ⟨i.raw, toString kb, i.raw⟩) [⟨"a"⟩]
      = [⟨"a", "200", "a"⟩] := by
  refine ⟨?_, ?_, ?_⟩
  · exact pack_images_budget.2.2.2 (fun kb i => ⟨i.raw, toString kb, i.raw⟩)
      ⟨"a"⟩ ⟨"b"⟩ ⟨"c"⟩ ⟨"d"⟩ ⟨"e"⟩
  · rw [pack_images_budget.2.1 (fun kb i => ⟨i.raw, toString kb, i.raw⟩)
      [⟨"a"⟩, ⟨"b"⟩, ⟨"c"⟩, ⟨"d"⟩, ⟨"e"⟩] (by simp)]
    decide
  · rw [pack_images_budget.1 (fun kb i => ⟨i.raw, toString kb, i.raw⟩) [⟨"a"⟩] (by simp)]
    decide

/-- C2 counterexample: a supplied tuning parameter of `0` is below the 500
floor, yet `update_consensus(trx_epoch_tick=0)` does not raise — the
truthiness guard `if trx_epoch_tick and trx_epoch_tick < 500` treats `0`
like an absent argument, so the call falls through (here all the way to the
"Nothing to update" short-circuit), refuting the claim for that input. -/
theorem update_consensus_zero_tick_cex :
    updateConsensus ⟨some "g1", ["g1"]⟩ ⟨none, none, none, none, none⟩
      none (some 0) none none none none = .ok .nothingToUpdate := by
  rfl

/-- C2 amended: for every call to `update_consensus` with a supplied
*nonzero* tuning parameter below its documented floor (`trx_epoch_tick <
500`, `agreement_tick_length < 1000`, or `agreement_tick_count < 10`), once
a group id resolves the call fails with InvalidArgument (a `ValueError`)
before the update request is built; in particular
`update_consensus(trx_epoch_tick=100)` raises InvalidArgument.  A supplied
value of `0` is treated as not supplied by the truthiness guard and does not
raise. -/
theorem update_consensus_floor_validation :
    ∀ (st : NodeState) (req : ConsensusReq)
      (sfe tet atl atc : Option Int) (pp : Option (List String))
      (gid : Option String) (g : String),
    checkGroupId st gid = .ok g →
    (((∃ t, tet = some t ∧ t ≠ 0 ∧ t < 500)
        ∨ (∃ l, atl = some l ∧ l ≠ 0 ∧ l < 1000)
        ∨ (∃ c, atc = some c ∧ c ≠ 0 ∧ c < 10)) →
      ∃ m, updateConsensus st req sfe tet atl atc pp gid = .error (Err.valueError m)
        ∧ (Err.valueError m).isInvalidArgument = true)
    ∧ (tet = some 100 →
      updateConsensus st req sfe tet atl atc pp gid
        = .error (.valueError "trx_epoch_tick should be greater than 500(ms)")) := by
  intro st req sfe tet atl atc pp gid g hc
  constructor
  · intro hviol
    by_cases h1 : pyTruthyI tet = true ∧ tet.getD 0 < 500
    · refine ⟨"trx_epoch_tick should be greater than 500(ms)", ?_, rfl⟩
      unfold updateConsensus
      rw [hc, except_bind_ok, if_pos h1]
    · by_cases h2 : pyTruthyI atl = true ∧ atl.getD 0 < 1000
      · refine ⟨"agreement_tick_length should be greater than 1000(ms)", ?_, rfl⟩
        unfold updateConsensus
        rw [hc, except_bind_ok, if_neg h1, if_pos h2]
      · by_cases h3 : pyTruthyI atc = true ∧ atc.getD 0 < 10
        · refine ⟨"agreement_tick_count should be greater than 10", ?_, rfl⟩
          unfold updateConsensus
          rw [hc, except_bind_ok, if_neg h1, if_neg h2, if_pos h3]
        · exfalso
          rcases hviol with ⟨t, ht, htz, htlt⟩ | ⟨l, hl, hlz, hllt⟩ | ⟨c2, hc2, hcz, hclt⟩
          · exact h1 ⟨by simp [ht, pyTruthyI, htz], by simp [ht, htlt]⟩
          · exact h2 ⟨by simp [hl, pyTruthyI, hlz], by simp [hl, hllt]⟩
          · exact h3 ⟨by simp [hc2, pyTruthyI, hcz], by simp [hc2, hclt]⟩
  · intro ht
    unfold updateConsensus
    rw [hc, except_bind_ok, if_pos (by simp [ht, pyTruthyI] : pyTruthyI tet = true ∧ tet.getD 0 < 500)]

/-- C2 amended witness: with the current group selected,
`update_consensus(trx_epoch_tick=100)` fails with the trx-epoch-tick
`ValueError`, and a below-floor `agreement_tick_count=5` also yields an
InvalidArgument-class error. -/
theorem update_consensus_floor_validation_witness :
    updateConsensus ⟨some "g1", ["g1"]⟩ ⟨none, none, none, none, none⟩
      none (some 100) none none none none
      = .error (.valueError "trx_epoch_tick should be greater than 500(ms)")
    ∧ ∃ m, updateConsensus ⟨some "g1", ["g1"]⟩ ⟨none, none, none, none, none⟩
      none none none (some 5) none none = .error (Err.valueError m)
        ∧ (Err.valueError m).isInvalidArgument = true := by
  constructor
  · exact (update_consensus_floor_validation ⟨some "g1", ["g1"]⟩
      ⟨none, none, none, none, none⟩ none (some 100) none none none none "g1" rfl).2 rfl
  · exact (update_consensus_floor_validation ⟨some "g1", ["g1"]⟩
      ⟨none, none, none, none, none⟩ none none none (some 5) none none "g1" rfl).1
      (Or.inr (Or.inr ⟨5, rfl, by decide, by decide⟩))

/-- C3: `remove_token` is dispatched through `BaseAPI._remove_token`, which
issues `self._http.delete("/app/api/v1/token", payload)` — but the
`HttpRequest` transport class defines only `get` and `post`, so every call
that reaches the dispatch raises `AttributeError` instead of returning the
node's decoded JSON response.  `revoke_token`, by contrast, reaches its POST
to the distinct revoke endpoint. -/
theorem remove_token_missing_transport_method :
    removeToken ⟨none, []⟩ (some "t") (some "chain") none
      = .error (.attributeError "HttpRequest object has no attribute delete")
    ∧ revokeToken ⟨none, []⟩ (some "t") (some "chain") none
      = .ok ⟨"post", "/app/api/v1/token/revoke", ⟨"chain", none, some "t"⟩⟩ := by
  exact ⟨rfl, rfl⟩

/-- C8: the `add_user` idempotency shortcut — when the announced-status probe
returns `Result == "APPROVED"`, that status is returned directly and no
approval transaction is issued; when the probe raises any exception, the
failure is swallowed and the call falls through to the approval path, whose
request is issued whenever the owner check passes. -/
theorem add_user_idempotency_probe :
    (∀ (st : NodeState) (infoOf : String → GroupInfo) (status : AnnouncedStatus)
        (pubkey : String) (gid : Option String),
      status.result = some "APPROVED" →
      addUser st infoOf (.ok status) pubkey gid = .ok (.announced status))
    ∧ (∀ (st : NodeState) (infoOf : String → GroupInfo) (e : String)
        (pubkey : String) (gid : Option String),
      addUser st infoOf (.error e) pubkey gid
        = (approveUser st infoOf pubkey "add" gid).map AddUserResult.approval)
    ∧ (∀ (st : NodeState) (infoOf : String → GroupInfo) (e : String)
        (pubkey : String) (gid : Option String) (g : String),
      checkGroupOwner st infoOf gid = .ok g →
      addUser st infoOf (.error e) pubkey gid
        = .ok (.approval ⟨"post", "/api/v1/group/user", ⟨pubkey, g, "add"⟩⟩)) := by
  refine ⟨?_, ?_, ?_⟩
  · intro st infoOf status pubkey gid hres
    simp [addUser, hres]
  · intro st infoOf e pubkey gid
    rfl
  · intro st infoOf e pubkey gid g hown
    have htl : pyLower "add" = "add" := by decide
    show (approveUser st infoOf pubkey "add" gid).map AddUserResult.approval = _
    unfold approveUser
    rw [hown, except_bind_ok, htl]
    rfl

/-- C8 witness: a probe reporting APPROVED short-circuits to the announced
status, and a raising probe falls through to issuing the approval request for
an owned group. -/
theorem add_user_idempotency_probe_witness :
    addUser ⟨some "g1", ["g1"]⟩ (fun _ => ⟨some "A", some "A"⟩)
      (.ok ⟨some "APPROVED"⟩) "pk" none = .ok (.announced ⟨some "APPROVED"⟩)
    ∧ addUser ⟨some "g1", ["g1"]⟩ (fun _ => ⟨some "A", some "A"⟩)
      (.error "probe crashed") "pk" none
      = .ok (.approval ⟨"post", "/api/v1/group/user", ⟨"pk", "g1", "add"⟩⟩) := by
  constructor
  · exact add_user_idempotency_probe.1 ⟨some "g1", ["g1"]⟩
      (fun _ => ⟨some "A", some "A"⟩) ⟨some "APPROVED"⟩ "pk" none rfl
  · exact add_user_idempotency_probe.2.2 ⟨some "g1", ["g1"]⟩
      (fun _ => ⟨some "A", some "A"⟩) "probe crashed" "pk" none "g1" rfl

/-- C9: `autoack` submits exactly the transaction ids of the publish-queue
entries whose `State` equals `"FAIL"` — an id is in the submitted batch iff
some queue entry carries it with state FAIL — and when no entry has state
FAIL, the empty batch short-circuits in `ack` to a successful no-op with no
acknowledgment request sent; a queue with two FAIL entries and one SUCCESS
entry submits exactly the two failed ids. -/
theorem autoack_submits_failed_ids :
    (∀ (st : NodeState) (gid : Option String) (queue : List PubqueueEntry) (g : String),
      checkGroupId st gid = .ok g →
      autoack st gid queue
        = .ok (ack ((queue.filter (fun i => i.state == "FAIL")).map (fun i => i.trxId))))
    ∧ (∀ (queue : List PubqueueEntry) (tid : String),
      tid ∈ (queue.filter (fun i => i.state == "FAIL")).map (fun i => i.trxId)
        ↔ ∃ e ∈ queue, e.state = "FAIL" ∧ e.trxId = tid)
    ∧ (∀ (st : NodeState) (gid : Option String) (queue : List PubqueueEntry) (g : String),
      checkGroupId st gid = .ok g →
      (∀ e ∈ queue, e.state ≠ "FAIL") →
      autoack st gid queue = .ok AckResult.noop)
    ∧ autoack ⟨some "g1", []⟩ none
        [⟨"FAIL", "t1"⟩, ⟨"SUCCESS", "t2"⟩, ⟨"FAIL", "t3"⟩]
      = .ok (.request ["t1", "t3"]) := by
  have hbase : ∀ (st : NodeState) (gid : Option String) (queue : List PubqueueEntry)
      (g : String), checkGroupId st gid = .ok g →
      autoack st gid queue
        = .ok (ack ((queue.filter (fun i => i.state == "FAIL")).map (fun i => i.trxId))) := by
    intro st gid queue g hc
    unfold autoack
    rw [hc, except_bind_ok]
    rfl
  refine ⟨hbase, ?_, ?_, by rfl⟩
  · intro queue tid
    simp [List.mem_filter]
    constructor
    · rintro ⟨e, ⟨he, hs⟩, ht⟩
      exact ⟨e, he, by simpa using hs, ht⟩
    · rintro ⟨e, he, hs, ht⟩
      exact ⟨e, ⟨he, by simpa using hs⟩, ht⟩
  · intro st gid queue g hc hnone
    rw [hbase st gid queue g hc]
    have hfilter : queue.filter (fun i => i.state == "FAIL") = [] := by
      rw [List.filter_eq_nil_iff]
      intro e he
      simpa using hnone e he
    rw [hfilter]
    rfl

/-- C9 witness: with a resolvable group id, an all-SUCCESS queue acks as a
no-op without a request, and the general form yields the FAIL-filtered
batch. -/
theorem autoack_submits_failed_ids_witness :
    autoack ⟨some "g1", []⟩ none [⟨"SUCCESS", "t2"⟩] = .ok AckResult.noop
    ∧ autoack ⟨some "g1", []⟩ none [⟨"FAIL", "t1"⟩]
      = .ok (ack ((([⟨"FAIL", "t1"⟩] : List PubqueueEntry).filter
          (fun i => i.state == "FAIL")).map (fun i => i.trxId))) := by
  constructor
  · exact autoack_submits_failed_ids.2.2.1 ⟨some "g1", []⟩ none [⟨"SUCCESS", "t2"⟩] "g1"
      rfl (by decide)
  · exact autoack_submits_failed_ids.1 ⟨some "g1", []⟩ none [⟨"FAIL", "t1"⟩] "g1" rfl

/-- C10 (implicit invariant): after `FullNode` construction and after every
assignment to the façade's `group_id` property, the façade's stored
`_group_id` equals the inner `FullNodeAPI.group_id` field; after any sequence
of assignments both fields hold the most recent selection (initially
`None`), so a group-scoped operation's current-group fallback resolves
exactly that selection. -/
theorem facade_group_id_sync :
    (facadeInit.facadeGroupId = facadeInit.apiGroupId)
    ∧ (∀ (s : FacadeState) (gid : Option String),
      (setGroupId s gid).facadeGroupId = (setGroupId s gid).apiGroupId
      ∧ (setGroupId s gid).apiGroupId = gid)
    ∧ (∀ ops : List (Option String),
      (runSets ops).facadeGroupId = (runSets ops).apiGroupId)
    ∧ (∀ (ops : List (Option String)) (g : Option String),
      ops.getLast? = some g → (runSets ops).apiGroupId = g)
    ∧ ((runSets []).apiGroupId = none)
    ∧ (∀ (ops : List (Option String)) (g : String) (gs : List String),
      ops.getLast? = some (some g) → g ≠ "" →
      checkGroupId ⟨(runSets ops).apiGroupId, gs⟩ none = .ok g) := by
  have hinv : ∀ (ops : List (Option String)) (s : FacadeState),
      s.facadeGroupId = s.apiGroupId →
      (ops.foldl setGroupId s).facadeGroupId = (ops.foldl setGroupId s).apiGroupId := by
    intro ops
    induction ops with
    | nil => intro s hs; exact hs
    | cons a as ih => intro s _; exact ih (setGroupId s a) rfl
  have hlast : ∀ (ops : List (Option String)) (g : Option String),
      ops.getLast? = some g → (runSets ops).apiGroupId = g := by
    intro ops
    induction ops using List.reverseRecOn with
    | nil => intro g hg; exact absurd hg (by simp)
    | append_singleton as a _ =>
      intro g hg
      rw [List.getLast?_concat] at hg
      unfold runSets
      rw [List.foldl_append]
      simp only [List.foldl_cons, List.foldl_nil]
      rw [Option.some_inj.mp hg]
      rfl
  refine ⟨rfl, fun s gid => ⟨rfl, rfl⟩, fun ops => hinv ops facadeInit rfl, hlast, rfl, ?_⟩
  intro ops g gs hg hne
  rw [hlast ops (some g) hg]
  unfold checkGroupId pyOrOS pyTruthyS
  simp [hne]

/-- C10 witness: after setting the group id to `"g1"` and then `"g2"`, both
fields read `"g2"` and the current-group fallback resolves `"g2"`. -/
theorem facade_group_id_sync_witness :
    (runSets [some "g1", some "g2"]).facadeGroupId = (runSets [some "g1", some "g2"]).apiGroupId
    ∧ (runSets [some "g1", some "g2"]).apiGroupId = some "g2"
    ∧ checkGroupId ⟨(runSets [some "g1", some "g2"]).apiGroupId, []⟩ none = .ok "g2" := by
  refine ⟨(facade_group_id_sync.2.2.1 [some "g1", some "g2"]), ?_, ?_⟩
  · exact facade_group_id_sync.2.2.2.1 [some "g1", some "g2"] (some "g2") rfl
  · exact facade_group_id_sync.2.2.2.2.2 [some "g1", some "g2"] "g2" [] rfl (by decide)

end Quorum
